import Mathlib

/-!
Verification development for the core of the AI-powered quiz application:
the AI-response acquisition and validation pipeline (`aiService.ts`),
the prompt builder, and the quiz session state transitions
(`QuizContext.tsx`).  JavaScript values parsed from JSON are modelled
by the inductive type `Json` (numbers as rationals), `JSON.parse` by a
fuel-based recursive-descent parser over the character list of the
input, and the asynchronous retry loops by pure functions that return
the final outcome together with the list of backoff delays and the
number of endpoint invocations performed.
-/

/-- Model of a JavaScript value produced by `JSON.parse`.
JSON numbers are modelled as rationals. -/
inductive Json where
  | null : Json
  | bool : Bool → Json
  | num : ℚ → Json
  | str : String → Json
  | arr : List Json → Json
  | obj : List (String × Json) → Json

/-- JSON whitespace skipping (space, tab, line feed, carriage return). -/
def skipWs (cs : List Char) : List Char :=
  cs.dropWhile (fun c => c == ' ' || c == '\t' || c == '\n' || c == '\r')

/-- Numeric value of a list of decimal digit characters. -/
def digitsVal (ds : List Char) : Nat :=
  ds.foldl (fun a c => a * 10 + (c.toNat - 48)) 0

/-- Parse an optional fractional part `.ddd`, returning its digits. -/
def parseFrac (cs : List Char) : Option (List Char × List Char) :=
  match cs with
  | '.' :: r =>
    let fds := r.takeWhile Char.isDigit
    if fds.isEmpty then none
    else some (fds, r.dropWhile Char.isDigit)
  | _ => some ([], cs)

/-- Parse an optional exponent part `e±ddd`, returning the exponent. -/
def parseExp (cs : List Char) : Option (Int × List Char) :=
  match cs with
  | c :: r =>
    if c == 'e' || c == 'E' then
      let sr : Int × List Char :=
        match r with
        | '+' :: r2 => (1, r2)
        | '-' :: r2 => (-1, r2)
        | _ => (1, r)
      let eds := sr.2.takeWhile Char.isDigit
      if eds.isEmpty then none
      else some (sr.1 * (digitsVal eds : Int), sr.2.dropWhile Char.isDigit)
    else some (0, cs)
  | [] => some (0, [])

/-- Parse a JSON number (optional minus, integer part without leading
zeros, optional fraction, optional exponent).  The value is assembled
as a single normalized fraction `mantissa * 10 ^ exponent /
10 ^ fractionLength`. -/
def parseNumber (cs : List Char) : Option (ℚ × List Char) :=
  let nr : Bool × List Char :=
    match cs with
    | '-' :: r => (true, r)
    | _ => (false, cs)
  let ids := nr.2.takeWhile Char.isDigit
  if ids.isEmpty then none
  else if 1 < ids.length && ids.headD '0' == '0' then none
  else
    match parseFrac (nr.2.dropWhile Char.isDigit) with
    | none => none
    | some (fds, cs2) =>
      match parseExp cs2 with
      | none => none
      | some (ev, cs3) =>
        let mantissa : Int := Int.ofNat (digitsVal (ids ++ fds))
        let sgn : Int := if nr.1 then -mantissa else mantissa
        let num : Int := if 0 ≤ ev then sgn * Int.ofNat (10 ^ ev.toNat) else sgn
        let den : Nat :=
          if 0 ≤ ev then 10 ^ fds.length else 10 ^ fds.length * 10 ^ (-ev).toNat
        some (mkRat num den, cs3)

/-- Value of a hexadecimal digit character. -/
def hexVal (c : Char) : Option Nat :=
  if c.isDigit then some (c.toNat - 48)
  else if 'a' ≤ c ∧ c ≤ 'f' then some (c.toNat - 97 + 10)
  else if 'A' ≤ c ∧ c ≤ 'F' then some (c.toNat - 65 + 10)
  else none

/-- Translation of a single-character JSON escape. -/
def escChar (c : Char) : Option Char :=
  match c with
  | '"' => some '"'
  | '\\' => some '\\'
  | '/' => some '/'
  | 'b' => some (Char.ofNat 8)
  | 'f' => some (Char.ofNat 12)
  | 'n' => some '\n'
  | 'r' => some '\r'
  | 't' => some '\t'
  | _ => none

/-- Parse the body of a JSON string (after the opening quote), up to and
including the closing quote; returns the decoded characters and the rest. -/
def parseStringBody : List Char → Option (List Char × List Char)
  | [] => none
  | '"' :: rest => some ([], rest)
  | '\\' :: 'u' :: h1 :: h2 :: h3 :: h4 :: rest =>
    match hexVal h1, hexVal h2, hexVal h3, hexVal h4 with
    | some a, some b, some c, some d =>
      (parseStringBody rest).map
        (fun p => (Char.ofNat (((a * 16 + b) * 16 + c) * 16 + d) :: p.1, p.2))
    | _, _, _, _ => none
  | '\\' :: c :: rest =>
    match escChar c with
    | some ec => (parseStringBody rest).map (fun p => (ec :: p.1, p.2))
    | none => none
  | c :: rest =>
    if c.toNat < 32 then none
    else (parseStringBody rest).map (fun p => (c :: p.1, p.2))

/-- Parse a comma-separated list of array elements up to the closing
bracket, given a parser `pv` for one value. -/
def parseElems (pv : List Char → Option (Json × List Char)) :
    Nat → List Char → Option (List Json × List Char)
  | 0, _ => none
  | fuel + 1, cs =>
    match pv cs with
    | none => none
    | some (v, r) =>
      match skipWs r with
      | ',' :: r2 => (parseElems pv fuel r2).map (fun p => (v :: p.1, p.2))
      | ']' :: r2 => some ([v], r2)
      | _ => none

/-- Parse a comma-separated list of object members up to the closing
brace, given a parser `pv` for one value. -/
def parseMembers (pv : List Char → Option (Json × List Char)) :
    Nat → List Char → Option (List (String × Json) × List Char)
  | 0, _ => none
  | fuel + 1, cs =>
    match skipWs cs with
    | '"' :: r =>
      match parseStringBody r with
      | none => none
      | some (k, r1) =>
        match skipWs r1 with
        | ':' :: r2 =>
          match pv r2 with
          | none => none
          | some (v, r3) =>
            match skipWs r3 with
            | ',' :: r4 =>
              (parseMembers pv fuel r4).map
                (fun p => ((String.mk k, v) :: p.1, p.2))
            | '}' :: r4 => some ([(String.mk k, v)], r4)
            | _ => none
        | _ => none
    | _ => none

/-- Parse one JSON value from the input (leading whitespace allowed),
returning the value and the unconsumed rest.  Fuel-based so that the
definition evaluates by kernel reduction; the top-level entry point
supplies more fuel than any input can consume. -/
def parseValue : Nat → List Char → Option (Json × List Char)
  | 0, _ => none
  | fuel + 1, cs =>
    match skipWs cs with
    | 'n' :: 'u' :: 'l' :: 'l' :: rest => some (Json.null, rest)
    | 't' :: 'r' :: 'u' :: 'e' :: rest => some (Json.bool true, rest)
    | 'f' :: 'a' :: 'l' :: 's' :: 'e' :: rest => some (Json.bool false, rest)
    | '"' :: rest =>
      (parseStringBody rest).map (fun p => (Json.str (String.mk p.1), p.2))
    | '[' :: rest =>
      match skipWs rest with
      | ']' :: r => some (Json.arr [], r)
      | _ => (parseElems (parseValue fuel) fuel rest).map (fun p => (Json.arr p.1, p.2))
    | '{' :: rest =>
      match skipWs rest with
      | '}' :: r => some (Json.obj [], r)
      | _ => (parseMembers (parseValue fuel) fuel rest).map (fun p => (Json.obj p.1, p.2))
    | other => (parseNumber other).map (fun p => (Json.num p.1, p.2))

namespace JSON

/-- Model of JavaScript `JSON.parse`: parse one value and require that
only whitespace remains.  Failure messages stand in for the
engine-specific `SyntaxError` messages. -/
def parse (s : String) : Except String Json :=
  match parseValue (s.length + 1) s.data with
  | some (v, rest) =>
    if (skipWs rest).isEmpty then Except.ok v
    else Except.error ("Unexpected non-whitespace character after JSON data")
  | none => Except.error ("Unexpected token in JSON")

end JSON

/-- Model of JavaScript property access `v[k]` on a parsed JSON value:
for an object, the value at key `k` with the last duplicate winning
(as `JSON.parse` keeps the last duplicate member); `none` models
`undefined` for everything else. -/
def lookupField : List (String × Json) → String → Option Json
  | [], _ => none
  | (k', v) :: rest, k =>
    match lookupField rest k with
    | some v' => some v'
    | none => if k' == k then some v else none

/-- Property access on an arbitrary JSON value (see `lookupField`). -/
def Json.member : Json → String → Option Json
  | Json.obj fs, k => lookupField fs k
  | _, _ => none

/-- Translation of `extractJSON` from `aiService.ts`: `text.match(/\x7b[\s\S]*\x7d/)`
matches greedily from the first opening brace to the last closing
brace of the whole text (when a closing brace occurs after the first
opening brace), and the match is passed to `JSON.parse`; with no match
the function throws `No JSON found in AI response`. -/
def extractJSON (text : String) : Except String Json :=
  let fromBrace := text.data.dropWhile (fun c => c ≠ '{')
  let matched := (fromBrace.reverse.dropWhile (fun c => c ≠ '}')).reverse
  if matched.isEmpty then Except.error ("No JSON found in AI response")
  else JSON.parse (String.mk matched)

example : extractJSON ("Sure! \x7b\"message\":\"hi\"\x7d thanks") =
    Except.ok (Json.obj [("message", Json.str "hi")]) := by rfl

example : extractJSON ("no braces here") =
    Except.error ("No JSON found in AI response") := by rfl

/-- Scan for the prefix of the input up to the brace closing the
opening brace that starts it (balanced-brace count); `depth` is the
number of currently open braces. -/
def scanBalanced : Nat → List Char → Option (List Char)
  | _, [] => none
  | depth, c :: rest =>
    if c = '}' then
      if depth = 1 then some [c]
      else (scanBalanced (depth - 1) rest).map (fun t => c :: t)
    else if c = '{' then (scanBalanced (depth + 1) rest).map (fun t => c :: t)
    else (scanBalanced depth rest).map (fun t => c :: t)

/-- Modelled from the spec: "locate the first substring that forms a
balanced top-level object span (i.e., from the first opening brace to
the matching closing brace that makes the substring well-formed per a
leftmost match), attempt to parse it as a structured value; if no such
span exists or parsing fails, fail with an extraction failure".  This
is the behaviour the spec ascribes to `extractJSON`; the source uses a
greedy regex instead (see `extractJSON`). -/
def specExtractJSON (text : String) : Except String Json :=
  match scanBalanced 0 (text.data.dropWhile (fun c => c ≠ '{')) with
  | none => Except.error ("No JSON found in AI response")
  | some span => JSON.parse (String.mk span)

/-- Test for the JavaScript check `typeof v === 'string'` applied to a
possibly-undefined property value. -/
def typeofString (o : Option Json) : Bool :=
  match o with
  | some (Json.str _) => true
  | _ => false

/-- Test of whether a JSON value is a string. -/
def isJsonStr (v : Json) : Bool :=
  match v with
  | Json.str _ => true
  | _ => false

/-- Test for `Array.isArray(v) && v.length === 4 && v.every(opt =>
typeof opt === 'string')` applied to a possibly-undefined property
value. -/
def isStringArr4 (o : Option Json) : Bool :=
  match o with
  | some (Json.arr opts) => opts.length == 4 && opts.all isJsonStr
  | _ => false

/-- Test for `typeof v === 'number' && v >= 0 && v <= 3` applied to a
possibly-undefined property value.  Integrality is not tested,
matching the source. -/
def numberInRange03 (o : Option Json) : Bool :=
  match o with
  | some (Json.num n) => decide (0 ≤ n) && decide (n ≤ 3)
  | _ => false

/-- Test for a number value that is moreover an integer in [0,3]
(integrality expressed as denominator 1 of the rational value). -/
def intInRange03 (o : Option Json) : Bool :=
  match o with
  | some (Json.num n) => n.den == 1 && decide (0 ≤ n) && decide (n ≤ 3)
  | _ => false

/-- Translation of `validateQuestion` from `aiService.ts`: string
`id`, string `question`, `options` an array of exactly 4 strings, and
`correctAnswer` of number type with `0 <= correctAnswer <= 3`. -/
def validateQuestion (question : Json) : Bool :=
  typeofString (question.member ("id")) &&
  typeofString (question.member ("question")) &&
  isStringArr4 (question.member ("options")) &&
  numberInRange03 (question.member ("correctAnswer"))

/-- Modelled from the spec: the per-item validator of the spec, which
requires `correctAnswer` to be "an integer in [0,3]".  Used to compare
the validator the spec describes with the one in the source. -/
def specValidQuestion (question : Json) : Bool :=
  typeofString (question.member ("id")) &&
  typeofString (question.member ("question")) &&
  isStringArr4 (question.member ("options")) &&
  intInRange03 (question.member ("correctAnswer"))

/-- Model of `QUIZ_CONFIG` from `constants.ts`. -/
structure QuizConfig where
  QUESTIONS_PER_QUIZ : Nat
  MAX_RETRIES : Nat
  RETRY_DELAY : Nat

def QUIZ_CONFIG : QuizConfig :=
  { QUESTIONS_PER_QUIZ := 5, MAX_RETRIES := 3, RETRY_DELAY := 1000 }

/-- Model of `APIError` from `types.ts` (`message: string; code?: string`). -/
structure APIError where
  message : String
  code : Option String

/-- Rendering of `lastError?.message` in a template literal when
`lastError` may be `null`: optional chaining on `null` gives
`undefined`, which interpolates as the string `undefined`. -/
def jsErrMessage : Option String → String
  | some m => m
  | none => "undefined"

/-- Result of one successful attempt inside `generateQuestions`: the
raw validated `questions` array and whether the count-mismatch warning
`Expected ... questions but got ...` was logged. -/
structure GenSuccess where
  questions : List Json
  warned : Bool

/-- One attempt of the try-block of `generateQuestions`: call the endpoint
(modelled by `api`, mapping the attempt index to either a thrown
thrown error message or the response text), extract JSON, require a
`questions` member that is an array (`!result.questions ||
!Array.isArray(result.questions)` rejects exactly the non-array and
absent cases, arrays being truthy), validate every item, and record
the count-mismatch warning. -/
def attemptGenerate (api : Nat → Except String String) (count : Nat)
    (attempt : Nat) : Except String GenSuccess :=
  match api attempt with
  | Except.error e => Except.error e
  | Except.ok text =>
    match extractJSON text with
    | Except.error e => Except.error e
    | Except.ok result =>
      match result.member ("questions") with
      | some (Json.arr questions) =>
        if questions.all validateQuestion then
          Except.ok { questions := questions, warned := questions.length ≠ count }
        else Except.error ("Invalid question format received")
      | _ => Except.error ("Invalid response format from AI")

/-- Observable trace of one `generateQuestions` call: final outcome,
backoff delays in order, number of attempts performed, and number of
count-mismatch warnings logged. -/
structure GenTrace where
  result : Except APIError (List Json)
  delays : List Nat
  calls : Nat
  warns : Nat

/-- The retry loop of `generateQuestions` (`for attempt in
0..MAX_RETRIES`), keeping the last error; a delay of
`RETRY_DELAY * 2 ^ attempt` occurs only when `attempt <
MAX_RETRIES - 1`, i.e. when further attempts remain. -/
def generateQuestionsGo (api : Nat → Except String String) (count : Nat) :
    Nat → Nat → Option String → GenTrace
  | _, 0, lastErr =>
    { result := Except.error
        { message := ("Failed to generate questions after ") ++
            toString QUIZ_CONFIG.MAX_RETRIES ++ (" attempts: ") ++ jsErrMessage lastErr,
          code := some ("GENERATION_FAILED") },
      delays := [], calls := 0, warns := 0 }
  | attempt, remaining + 1, _ =>
    match attemptGenerate api count attempt with
    | Except.ok s =>
      { result := Except.ok s.questions, delays := [], calls := 1,
        warns := if s.warned then 1 else 0 }
    | Except.error e =>
      let rest := generateQuestionsGo api count (attempt + 1) remaining (some e)
      { result := rest.result,
        delays := (if 0 < remaining then [QUIZ_CONFIG.RETRY_DELAY * 2 ^ attempt] else []) ++
          rest.delays,
        calls := rest.calls + 1,
        warns := rest.warns }

/-- Translation of `generateQuestions` from `aiService.ts`, with the
endpoint abstracted as `api` (prompt construction does not influence the
control flow modelled here). -/
def generateQuestions (api : Nat → Except String String) (count : Nat) : GenTrace :=
  generateQuestionsGo api count 0 QUIZ_CONFIG.MAX_RETRIES none

/-- Observable trace of one `generateFeedback` call. -/
structure FeedbackTrace where
  result : Except String String
  calls : Nat

/-- Translation of `generateFeedback` from `aiService.ts`: a single endpoint call (no
retry loop); the catch-block rethrows the caught error unchanged.  The
success check `!result.message || typeof result.message !== 'string'`
rejects an absent member, any non-string, and the falsy empty
string. -/
def generateFeedback (api : Nat → Except String String) : FeedbackTrace :=
  match api 0 with
  | Except.error e => { result := Except.error e, calls := 1 }
  | Except.ok text =>
    match extractJSON text with
    | Except.error e => { result := Except.error e, calls := 1 }
    | Except.ok result =>
      match result.member ("message") with
      | some (Json.str message) =>
        if message = "" then
          { result := Except.error ("Invalid feedback format from AI"), calls := 1 }
        else { result := Except.ok message, calls := 1 }
      | _ => { result := Except.error ("Invalid feedback format from AI"), calls := 1 }

/-- Observable trace of one `retryWithBackoff` call: the thrown value
is `Option String` because after zero iterations the code throws the
never-assigned `lastError` (`none` models the `undefined` value). -/
structure RetryTrace (α : Type) where
  result : Except (Option String) α
  delays : List Nat
  calls : Nat

/-- The loop of `retryWithBackoff`, keeping the last error; a delay of
`baseDelay * 2 ^ attempt` occurs only when `attempt < maxRetries - 1`. -/
def retryGo (f : Nat → Except String α) (baseDelay : Nat) :
    Nat → Nat → Option String → RetryTrace α
  | _, 0, lastErr => { result := Except.error lastErr, delays := [], calls := 0 }
  | attempt, remaining + 1, _ =>
    match f attempt with
    | Except.ok v => { result := Except.ok v, delays := [], calls := 1 }
    | Except.error e =>
      let rest := retryGo f baseDelay (attempt + 1) remaining (some e)
      { result := rest.result,
        delays := (if 0 < remaining then [baseDelay * 2 ^ attempt] else []) ++ rest.delays,
        calls := rest.calls + 1 }

/-- Translation of `retryWithBackoff` from `aiService.ts`.  `maxRetries` is an `Int`
because the claimed behaviour includes non-positive bounds: the
JavaScript loop `for (attempt = 0; attempt < maxRetries; ...)` runs
`max maxRetries 0` times. -/
def retryWithBackoff (f : Nat → Except String α) (maxRetries : Int)
    (baseDelay : Nat) : RetryTrace α :=
  retryGo f baseDelay 0 maxRetries.toNat none

/-- Translation of `generateFeedbackPrompt` from `aiService.ts`, rendered exactly as
the template literal in the source (including the trailing space
before the first line break). -/
def generateFeedbackPrompt (topic : String) (score : Int)
    (correctAnswers totalQuestions : Nat) : String :=
  ("Generate personalized feedback for a quiz taker who scored ") ++
  toString correctAnswers ++ (" out of ") ++ toString totalQuestions ++
  (" \non a ") ++ topic ++ (" quiz (") ++ toString score ++
  ("%).\n\nReturn ONLY valid JSON in this exact format:\n\x7b\n  \"message\": \"Your personalized feedback message here\"\n\x7d\n\nRequirements:\n- Be encouraging and positive\n- Acknowledge their performance level\n- Provide 1-2 specific suggestions for improvement if score < 80%\n- Keep the message concise (2-3 sentences)\n- Use a friendly, conversational tone")

/-- Model of `Question` from `types.ts`. -/
structure Question where
  id : String
  question : String
  options : List String
  correctAnswer : Nat

/-- Model of `UserAnswer` from `types.ts`. -/
structure UserAnswer where
  questionId : String
  selectedOption : Nat
  isCorrect : Bool

/-- Model of `QuizResult` from `types.ts` (`score` is the rounded percentage). -/
structure QuizResult where
  totalQuestions : Nat
  correctAnswers : Nat
  score : Int
  answers : List UserAnswer

namespace Math

/-- JavaScript `Math.round` on (finite, non-`NaN`) numbers: round half
toward positive infinity. -/
def round (q : ℚ) : Int := ⌊q + 1 / 2⌋

end Math

/-- Translation of `finalizeQuiz` from `QuizContext.tsx`: computes the result from
the provided answers, dividing by `questions.length`.  (For an empty
question list JavaScript produces `NaN`; theorems below assume a
nonempty question list.) -/
def finalizeQuiz (questions : List Question) (answers : List UserAnswer) : QuizResult :=
  let correctAnswers := (answers.filter (fun a => a.isCorrect)).length
  let totalQuestions := questions.length
  let score := Math.round (((correctAnswers : ℚ) / (totalQuestions : ℚ)) * 100)
  { totalQuestions := totalQuestions, correctAnswers := correctAnswers,
    score := score, answers := answers }

/-- Model of JavaScript `Array.prototype.findIndex` (auxiliary
recursion carrying the index of the list head). -/
def findIndexAux (p : α → Bool) : List α → Nat → Option Nat
  | [], _ => none
  | x :: xs, i => if p x then some i else findIndexAux p xs (i + 1)

/-- Model of JavaScript `Array.prototype.findIndex`, with `none`
standing for the sentinel `-1`. -/
def findIndex (p : α → Bool) (l : List α) : Option Nat :=
  findIndexAux p l 0

/-- Translation of `answerQuestion` from `QuizContext.tsx`: overwrite
the existing answer for the question id in place (`findIndex` then
indexed assignment on a copy), or append a new one; the stored
`isCorrect` is `selectedOption === correctAnswer`. -/
def answerQuestion (currentAnswers : List UserAnswer) (questionId : String)
    (selectedOption correctAnswer : Nat) : List UserAnswer :=
  let isCorrect := selectedOption == correctAnswer
  let newAnswer : UserAnswer :=
    { questionId := questionId, selectedOption := selectedOption, isCorrect := isCorrect }
  match findIndex (fun a => a.questionId == questionId) currentAnswers with
  | some i => currentAnswers.set i newAnswer
  | none => currentAnswers ++ [newAnswer]

/-! Concrete fixtures used by the theorems below. -/

/-- A structurally valid question object whose `correctAnswer` is the
non-integral number 5/2. -/
def qHalf : Json :=
  Json.obj [("id", Json.str "q1"), ("question", Json.str "Q?"),
    ("options", Json.arr [Json.str "a", Json.str "b", Json.str "c", Json.str "d"]),
    ("correctAnswer", Json.num (mkRat 5 2))]

/-- A question object with every field of the required shape. -/
def qGood : Json :=
  Json.obj [("id", Json.str "q1"), ("question", Json.str "Q?"),
    ("options", Json.arr [Json.str "a", Json.str "b", Json.str "c", Json.str "d"]),
    ("correctAnswer", Json.num 2)]

/-- A question object with `correctAnswer` missing. -/
def qMissing : Json :=
  Json.obj [("id", Json.str "q1"), ("question", Json.str "Q?"),
    ("options", Json.arr [Json.str "a", Json.str "b", Json.str "c", Json.str "d"])]

/-- A question object with only 3 options. -/
def qThree : Json :=
  Json.obj [("id", Json.str "q1"), ("question", Json.str "Q?"),
    ("options", Json.arr [Json.str "a", Json.str "b", Json.str "c"]),
    ("correctAnswer", Json.num 2)]

/-- A question object with `correctAnswer = 4`. -/
def qFour : Json :=
  Json.obj [("id", Json.str "q1"), ("question", Json.str "Q?"),
    ("options", Json.arr [Json.str "a", Json.str "b", Json.str "c", Json.str "d"]),
    ("correctAnswer", Json.num 4)]

/-- An endpoint that always answers with prose-wrapped feedback JSON. -/
def apiFeedbackOk : Nat → Except String String := fun _ =>
  Except.ok ("Sure! \x7b\"message\":\"hi\"\x7d thanks")

/-- An endpoint that always answers with a two-question payload. -/
def apiTwoQuestions : Nat → Except String String := fun _ =>
  Except.ok ("\x7b\"questions\":[\x7b\"id\":\"1\",\"question\":\"Q1?\",\"options\":[\"a\",\"b\",\"c\",\"d\"],\"correctAnswer\":1\x7d,\x7b\"id\":\"2\",\"question\":\"Q2?\",\"options\":[\"a\",\"b\",\"c\",\"d\"],\"correctAnswer\":0\x7d]\x7d")

/-- The parsed questions of `apiTwoQuestions`. -/
def twoQuestions : List Json :=
  [Json.obj [("id", Json.str "1"), ("question", Json.str "Q1?"),
     ("options", Json.arr [Json.str "a", Json.str "b", Json.str "c", Json.str "d"]),
     ("correctAnswer", Json.num 1)],
   Json.obj [("id", Json.str "2"), ("question", Json.str "Q2?"),
     ("options", Json.arr [Json.str "a", Json.str "b", Json.str "c", Json.str "d"]),
     ("correctAnswer", Json.num 0)]]

/-- An endpoint that always fails at the transport level. -/
def apiAlwaysFails : Nat → Except String String := fun _ =>
  Except.error ("network down")

/-- An operation that fails on its first two invocations and succeeds
on the third. -/
def opFailTwice : Nat → Except String Nat := fun i =>
  if i < 2 then Except.error ("boom") else Except.ok 42

/-- Five placeholder questions (the configured quiz length). -/
def fiveQuestions : List Question :=
  List.replicate 5
    { id := "q", question := "Q?", options := ["a", "b", "c", "d"], correctAnswer := 0 }

/-- Five recorded answers of which exactly 3 are correct. -/
def threeOfFiveAnswers : List UserAnswer :=
  [{ questionId := "1", selectedOption := 0, isCorrect := true },
   { questionId := "2", selectedOption := 0, isCorrect := true },
   { questionId := "3", selectedOption := 0, isCorrect := true },
   { questionId := "4", selectedOption := 1, isCorrect := false },
   { questionId := "5", selectedOption := 1, isCorrect := false }]

/-- Five recorded answers, all correct. -/
def fiveOfFiveAnswers : List UserAnswer :=
  [{ questionId := "1", selectedOption := 0, isCorrect := true },
   { questionId := "2", selectedOption := 0, isCorrect := true },
   { questionId := "3", selectedOption := 0, isCorrect := true },
   { questionId := "4", selectedOption := 0, isCorrect := true },
   { questionId := "5", selectedOption := 0, isCorrect := true }]

/-- Two recorded answers with distinct question ids. -/
def twoAnswers : List UserAnswer :=
  [{ questionId := "q1", selectedOption := 0, isCorrect := true },
   { questionId := "q2", selectedOption := 1, isCorrect := false }]

/-! Helper lemmas. -/

theorem dropWhileAppendAll {α : Type} (p : α → Bool) (l r : List α)
    (h : ∀ x ∈ l, p x = true) : (l ++ r).dropWhile p = r.dropWhile p := by
  induction l with
  | nil => rfl
  | cons x xs ih =>
    simp only [List.cons_append, List.dropWhile_cons]
    rw [h x (by simp)]
    simp only [if_true]
    exact ih (fun y hy => h y (by simp [hy]))

theorem stringMkData (s : String) : String.mk s.data = s := by
  cases s
  rfl

theorem typeofStringIff (o : Option Json) :
    typeofString o = true ↔ ∃ s, o = some (Json.str s) := by
  cases o with
  | none => simp [typeofString]
  | some v => cases v <;> simp [typeofString]

theorem isJsonStrIff (v : Json) :
    isJsonStr v = true ↔ ∃ s, v = Json.str s := by
  cases v <;> simp [isJsonStr]

theorem isStringArr4Iff (o : Option Json) :
    isStringArr4 o = true ↔
      ∃ opts, o = some (Json.arr opts) ∧ opts.length = 4 ∧
        ∀ v ∈ opts, ∃ s, v = Json.str s := by
  cases o with
  | none => simp [isStringArr4]
  | some v =>
    cases v <;>
      simp [isStringArr4, List.all_eq_true, isJsonStrIff, Bool.and_eq_true, and_assoc]

theorem numberInRange03Iff (o : Option Json) :
    numberInRange03 o = true ↔
      ∃ n : ℚ, o = some (Json.num n) ∧ 0 ≤ n ∧ n ≤ 3 := by
  cases o with
  | none => simp [numberInRange03]
  | some v =>
    cases v <;>
      simp [numberInRange03, Bool.and_eq_true, and_assoc]

/-! Claim theorems. -/

/-- C1 (counterexample): on text containing two object spans, the
extraction the spec describes (parse the leftmost balanced span)
yields the first object, but the extraction in the source matches
greedily up to the last closing brace and therefore fails to parse. -/
theorem extractJSON_not_leftmost_balanced :
    specExtractJSON ("x \x7b\"a\":1\x7d y \x7b\"b\":2\x7d z") =
      Except.ok (Json.obj [("a", Json.num 1)]) ∧
    extractJSON ("x \x7b\"a\":1\x7d y \x7b\"b\":2\x7d z") =
      Except.error ("Unexpected non-whitespace character after JSON data") := by
  exact ⟨rfl, rfl⟩

/-- C1 (amended): the JSON extraction takes the substring from the
first opening brace to the LAST closing brace of the whole text (the
greedy regex match) and parses that; if no such substring exists or
parsing fails, it fails with an extraction failure.  On the example
text the greedy span coincides with the single object span, so the
object is returned; on input without an opening brace it fails with
the extraction-failure message. -/
theorem extractJSON_greedy_span :
    (∀ a b c : String, '{' ∉ a.data → '}' ∉ c.data →
      extractJSON (a ++ ("\x7b") ++ b ++ ("\x7d") ++ c) =
        JSON.parse (("\x7b") ++ b ++ ("\x7d"))) ∧
    (∀ s : String, '{' ∉ s.data →
      extractJSON s = Except.error ("No JSON found in AI response")) ∧
    extractJSON ("Sure! \x7b\"message\":\"hi\"\x7d thanks") =
      Except.ok (Json.obj [("message", Json.str "hi")]) := by
  refine ⟨?_, ?_, rfl⟩
  · intro a b c ha hc
    have hob : ("\x7b" : String).data = ['{'] := rfl
    have hcb : ("\x7d" : String).data = ['}'] := rfl
    have ha' : ∀ x ∈ a.data, (decide (x ≠ '{')) = true := by
      intro x hx
      simp only [decide_eq_true_eq]
      exact fun h => ha (h ▸ hx)
    have hc' : ∀ x ∈ c.data.reverse, (decide (x ≠ '}')) = true := by
      intro x hx
      simp only [decide_eq_true_eq]
      exact fun h => hc (h ▸ (List.mem_reverse.mp hx))
    have hd : (a ++ ("\x7b") ++ b ++ ("\x7d") ++ c).data
        = a.data ++ ('{' :: (b.data ++ '}' :: c.data)) := by
      simp [String.data_append, hob, hcb]
    have hstep1 : (a ++ ("\x7b") ++ b ++ ("\x7d") ++ c).data.dropWhile
        (fun ch => ch ≠ '{') = '{' :: (b.data ++ '}' :: c.data) := by
      rw [hd, dropWhileAppendAll _ _ _ ha']
      simp [List.dropWhile_cons]
    have hstep2 : ('{' :: (b.data ++ '}' :: c.data)).reverse
        = c.data.reverse ++ ('}' :: (b.data.reverse ++ ['{'])) := by
      simp
    have hstep3 : (c.data.reverse ++ ('}' :: (b.data.reverse ++ ['{']))).dropWhile
        (fun ch => ch ≠ '}') = '}' :: (b.data.reverse ++ ['{']) := by
      rw [dropWhileAppendAll _ _ _ hc']
      simp [List.dropWhile_cons]
    have hstep4 : ('}' :: (b.data.reverse ++ ['{'])).reverse
        = '{' :: (b.data ++ ['}']) := by
      simp
    have hmk : String.mk ('{' :: (b.data ++ ['}'])) = ("\x7b") ++ b ++ ("\x7d") := by
      have hd2 : (("\x7b") ++ b ++ ("\x7d")).data = '{' :: (b.data ++ ['}']) := by
        simp [String.data_append, hob, hcb]
      rw [← hd2, stringMkData]
    simp only [extractJSON, hstep1, hstep2, hstep3, hstep4, hmk]
    simp
  · intro s hs
    have hnil : s.data.dropWhile (fun ch => ch ≠ '{') = [] := by
      rw [List.dropWhile_eq_nil_iff]
      intro x hx
      simp only [decide_eq_true_eq]
      exact fun h => hs (h ▸ hx)
    simp only [extractJSON, hnil]
    rfl

/-- C1 (witness): the amended greedy-span description instantiated on
the example text from the spec. -/
theorem extractJSON_greedy_span_witness :
    extractJSON (("Sure! ") ++ ("\x7b") ++ ("\"message\":\"hi\"") ++ ("\x7d") ++ (" thanks")) =
      JSON.parse (("\x7b") ++ ("\"message\":\"hi\"") ++ ("\x7d")) :=
  extractJSON_greedy_span.1 ("Sure! ") ("\"message\":\"hi\"") (" thanks")
    (by decide) (by decide)

/-- C2 (counterexample): an object whose `correctAnswer` is the
non-integral number 5/2 passes the validator in the source, while the
validator the spec describes (integer in [0,3]) rejects it. -/
theorem validateQuestion_accepts_nonintegral :
    validateQuestion qHalf = true ∧ specValidQuestion qHalf = false ∧
      (mkRat 5 2).den ≠ 1 := by
  exact ⟨by decide, by decide, by decide⟩

/-- C2 (amended): the per-item validator accepts an object if and only
if it has a string `id`, a string `question`, an `options` array of
exactly 4 strings, and a `correctAnswer` that is a NUMBER in [0,3]
(integrality is not required); consequently an object missing
`correctAnswer` fails, one with 3 options fails, one with
`correctAnswer = 4` fails, and one with all fields of the required
shapes passes. -/
theorem validateQuestion_characterization :
    (∀ fs : List (String × Json),
      validateQuestion (Json.obj fs) = true ↔
        (∃ s, lookupField fs ("id") = some (Json.str s)) ∧
        (∃ s, lookupField fs ("question") = some (Json.str s)) ∧
        (∃ opts, lookupField fs ("options") = some (Json.arr opts) ∧ opts.length = 4 ∧
          ∀ v ∈ opts, ∃ s, v = Json.str s) ∧
        (∃ n : ℚ, lookupField fs ("correctAnswer") = some (Json.num n) ∧ 0 ≤ n ∧ n ≤ 3)) ∧
    validateQuestion qMissing = false ∧
    validateQuestion qThree = false ∧
    validateQuestion qFour = false ∧
    validateQuestion qGood = true := by
  refine ⟨?_, by decide, by decide, by decide, by decide⟩
  intro fs
  simp [validateQuestion, Json.member, Bool.and_eq_true,
    typeofStringIff, isStringArr4Iff, numberInRange03Iff, and_assoc]

/-- C2 (witness): the characterization applied to the concrete passing
object. -/
theorem validateQuestion_characterization_witness :
    validateQuestion qGood = true :=
  validateQuestion_characterization.2.2.2.2

/-- C3: with base delay 1000 and max retries 3, an operation that
fails on its first two invocations and succeeds on the third produces
exactly two backoff delays, of magnitude 1000 and 2000, and the
successful third result after exactly 3 attempts; this holds both for
the reusable `retryWithBackoff` utility and for the inlined retry loop
of `generateQuestions`. -/
theorem retry_two_failures_then_success :
    (∀ {α : Type} (f : Nat → Except String α) (e0 e1 : String) (v : α),
      f 0 = Except.error e0 → f 1 = Except.error e1 → f 2 = Except.ok v →
      retryWithBackoff f 3 1000 =
        { result := Except.ok v, delays := [1000, 2000], calls := 3 }) ∧
    (∀ (api : Nat → Except String String) (count : Nat) (e0 e1 : String) (g : GenSuccess),
      attemptGenerate api count 0 = Except.error e0 →
      attemptGenerate api count 1 = Except.error e1 →
      attemptGenerate api count 2 = Except.ok g →
      generateQuestions api count =
        { result := Except.ok g.questions, delays := [1000, 2000], calls := 3,
          warns := if g.warned then 1 else 0 }) := by
  constructor
  · intro α f e0 e1 v h0 h1 h2
    norm_num [retryWithBackoff, retryGo, h0, h1, h2]
  · intro api count e0 e1 g h0 h1 h2
    norm_num [generateQuestions, generateQuestionsGo, QUIZ_CONFIG, h0, h1, h2]

/-- C3 (witness): the concrete fail-fail-succeed operation. -/
theorem retry_two_failures_then_success_witness :
    retryWithBackoff opFailTwice 3 1000 =
      { result := Except.ok 42, delays := [1000, 2000], calls := 3 } :=
  retry_two_failures_then_success.1 opFailTwice ("boom") ("boom") 42 rfl rfl rfl

/-- C4: when every attempt fails, `generateQuestions` performs exactly
3 (= MAX_RETRIES) attempts with the two intermediate backoff delays,
then fails with the typed `APIError` whose message extends the last
underlying failure message and whose code is the fixed value
`GENERATION_FAILED`; no further attempts are made. -/
theorem generateQuestions_exhaustion :
    ∀ (api : Nat → Except String String) (count : Nat) (e0 e1 e2 : String),
      attemptGenerate api count 0 = Except.error e0 →
      attemptGenerate api count 1 = Except.error e1 →
      attemptGenerate api count 2 = Except.error e2 →
      generateQuestions api count =
        { result := Except.error
            { message := ("Failed to generate questions after 3 attempts: ") ++ e2,
              code := some ("GENERATION_FAILED") },
          delays := [1000, 2000], calls := 3, warns := 0 } := by
  intro api count e0 e1 e2 h0 h1 h2
  norm_num [generateQuestions, generateQuestionsGo, QUIZ_CONFIG, jsErrMessage, h0, h1, h2]
  rfl

/-- C4 (witness): exhaustion on the endpoint that always fails with a
network error. -/
theorem generateQuestions_exhaustion_witness :
    generateQuestions apiAlwaysFails 5 =
      { result := Except.error
          { message := ("Failed to generate questions after 3 attempts: network down"),
            code := some ("GENERATION_FAILED") },
        delays := [1000, 2000], calls := 3, warns := 0 } :=
  generateQuestions_exhaustion apiAlwaysFails 5 ("network down") ("network down")
    ("network down") rfl rfl rfl

/-- C5: whenever the first response extracts to a payload whose
`questions` member is an array in which every item passes the
validator, `generateQuestions` succeeds immediately with exactly those
questions after a single attempt and no delays, regardless of whether
the array length equals the requested count; a length mismatch only
increments the warning counter and is never treated as a failure. -/
theorem generateQuestions_count_mismatch_tolerated :
    ∀ (api : Nat → Except String String) (count : Nat) (text : String)
      (payload : Json) (qs : List Json),
      api 0 = Except.ok text →
      extractJSON text = Except.ok payload →
      payload.member ("questions") = some (Json.arr qs) →
      qs.all validateQuestion = true →
      generateQuestions api count =
        { result := Except.ok qs, delays := [], calls := 1,
          warns := if qs.length = count then 0 else 1 } := by
  intro api count text payload qs h0 h1 h2 h3
  have hAtt : attemptGenerate api count 0 =
      Except.ok { questions := qs, warned := decide (qs.length ≠ count) } := by
    simp [attemptGenerate, h0, h1, h2, h3]
  simp only [generateQuestions, QUIZ_CONFIG, generateQuestionsGo, hAtt]
  by_cases h : qs.length = count <;> simp [h]

set_option maxRecDepth 16384 in
/-- C5 (witness): a payload with 2 valid questions against a requested
count of 5 succeeds with both questions and one warning. -/
theorem generateQuestions_count_mismatch_tolerated_witness :
    generateQuestions apiTwoQuestions 5 =
      { result := Except.ok twoQuestions, delays := [], calls := 1, warns := 1 } := by
  have h := generateQuestions_count_mismatch_tolerated apiTwoQuestions 5
    ("\x7b\"questions\":[\x7b\"id\":\"1\",\"question\":\"Q1?\",\"options\":[\"a\",\"b\",\"c\",\"d\"],\"correctAnswer\":1\x7d,\x7b\"id\":\"2\",\"question\":\"Q2?\",\"options\":[\"a\",\"b\",\"c\",\"d\"],\"correctAnswer\":0\x7d]\x7d")
    (Json.obj [("questions", Json.arr twoQuestions)]) twoQuestions rfl (by rfl) (by rfl)
    (by decide)
  simpa [twoQuestions] using h

/-- C6: `generateFeedback` performs exactly one endpoint call; a
transport failure, an extraction failure, or a validation failure of
the `message` field propagates to the caller as the first failure
unchanged, and on success the extracted string `message` field is
returned. -/
theorem generateFeedback_single_call :
    ∀ api : Nat → Except String String,
      (generateFeedback api).calls = 1 ∧
      (∀ e, api 0 = Except.error e → (generateFeedback api).result = Except.error e) ∧
      (∀ text e, api 0 = Except.ok text → extractJSON text = Except.error e →
        (generateFeedback api).result = Except.error e) ∧
      (∀ text payload, api 0 = Except.ok text → extractJSON text = Except.ok payload →
        ∀ m, payload.member ("message") = some (Json.str m) → m ≠ "" →
          (generateFeedback api).result = Except.ok m) := by
  intro api
  refine ⟨?_, ?_, ?_, ?_⟩
  · rcases h : api 0 with e | t
    · simp [generateFeedback, h]
    · rcases h2 : extractJSON t with e | r
      · simp [generateFeedback, h, h2]
      · rcases h3 : r.member ("message") with _ | v
        · simp [generateFeedback, h, h2, h3]
        · cases v <;> simp [generateFeedback, h, h2, h3, apply_ite]
  · intro e he
    simp [generateFeedback, he]
  · intro t e ht he
    simp [generateFeedback, ht, he]
  · intro t r ht hr m hm hne
    simp [generateFeedback, ht, hr, hm, hne]

/-- C6 (witness): the single-call behaviour on the concrete feedback
endpoint. -/
theorem generateFeedback_single_call_witness :
    (generateFeedback apiFeedbackOk).result = Except.ok ("hi") ∧
    (generateFeedback apiFeedbackOk).calls = 1 :=
  ⟨(generateFeedback_single_call apiFeedbackOk).2.2.2
      ("Sure! \x7b\"message\":\"hi\"\x7d thanks")
      (Json.obj [("message", Json.str "hi")]) rfl rfl ("hi") rfl (by decide),
    (generateFeedback_single_call apiFeedbackOk).1⟩

set_option maxRecDepth 16384 in
/-- C7: for every input, the rendered feedback prompt carries its
improvement instruction only in the literal guarded form `Provide 1-2
specific suggestions for improvement if score < 80%`, placed in a
suffix that does not depend on the score, while the score itself is
embedded at a fixed slot of the prompt; hence the prompt requests an
improvement suggestion exactly under the embedded condition
`score < 80`, and for `score >= 80` it does not require one. -/
theorem generateFeedbackPrompt_conditional_improvement :
    ∀ (topic : String) (c t : Nat), ∃ pre mid post,
      ∀ sc : Int, generateFeedbackPrompt topic sc c t =
        pre ++ toString sc ++ mid ++
          ("Provide 1-2 specific suggestions for improvement if score < 80%") ++ post := by
  intro topic c t
  refine ⟨("Generate personalized feedback for a quiz taker who scored ") ++
      toString c ++ (" out of ") ++ toString t ++ (" \non a ") ++ topic ++ (" quiz ("),
    ("%).\n\nReturn ONLY valid JSON in this exact format:\n\x7b\n  \"message\": \"Your personalized feedback message here\"\n\x7d\n\nRequirements:\n- Be encouraging and positive\n- Acknowledge their performance level\n- "),
    ("\n- Keep the message concise (2-3 sentences)\n- Use a friendly, conversational tone"),
    ?_⟩
  intro sc
  have hsplit : ("%).\n\nReturn ONLY valid JSON in this exact format:\n\x7b\n  \"message\": \"Your personalized feedback message here\"\n\x7d\n\nRequirements:\n- Be encouraging and positive\n- Acknowledge their performance level\n- ") ++
      (("Provide 1-2 specific suggestions for improvement if score < 80%") ++
        ("\n- Keep the message concise (2-3 sentences)\n- Use a friendly, conversational tone")) =
      ("%).\n\nReturn ONLY valid JSON in this exact format:\n\x7b\n  \"message\": \"Your personalized feedback message here\"\n\x7d\n\nRequirements:\n- Be encouraging and positive\n- Acknowledge their performance level\n- Provide 1-2 specific suggestions for improvement if score < 80%\n- Keep the message concise (2-3 sentences)\n- Use a friendly, conversational tone") := by
    rfl
  simp only [generateFeedbackPrompt, String.append_assoc, hsplit]

/-- C8: `finalizeQuiz` records the totals and the provided answers
exactly, and computes the score as the rounded percentage: with 5
questions, 3 correct answers give 60 and 5 correct answers give
100. -/
theorem finalizeQuiz_score_rounding :
    (∀ (questions : List Question) (answers : List UserAnswer),
      (finalizeQuiz questions answers).totalQuestions = questions.length ∧
      (finalizeQuiz questions answers).correctAnswers =
        (answers.filter (fun a => a.isCorrect)).length ∧
      (finalizeQuiz questions answers).answers = answers ∧
      (finalizeQuiz questions answers).score =
        Math.round ((((answers.filter (fun a => a.isCorrect)).length : ℚ) /
          (questions.length : ℚ)) * 100)) ∧
    (∀ (questions : List Question) (answers : List UserAnswer), questions.length = 5 →
      ((answers.filter (fun a => a.isCorrect)).length = 3 →
        (finalizeQuiz questions answers).score = 60) ∧
      ((answers.filter (fun a => a.isCorrect)).length = 5 →
        (finalizeQuiz questions answers).score = 100)) := by
  constructor
  · intro questions answers
    exact ⟨rfl, rfl, rfl, rfl⟩
  · intro questions answers hq
    constructor
    · intro h3
      simp only [finalizeQuiz, hq, h3]
      norm_num [Math.round]
    · intro h5
      simp only [finalizeQuiz, hq, h5]
      norm_num [Math.round]

/-- C8 (witness): the two concrete scores from the spec. -/
theorem finalizeQuiz_score_rounding_witness :
    (finalizeQuiz fiveQuestions threeOfFiveAnswers).score = 60 ∧
    (finalizeQuiz fiveQuestions fiveOfFiveAnswers).score = 100 :=
  ⟨(finalizeQuiz_score_rounding.2 fiveQuestions threeOfFiveAnswers (by decide)).1 (by decide),
   (finalizeQuiz_score_rounding.2 fiveQuestions fiveOfFiveAnswers (by decide)).2 (by decide)⟩

theorem findIndexAuxSucc {α : Type} (p : α → Bool) (l : List α) (k : Nat) :
    findIndexAux p l (k + 1) = (findIndexAux p l k).map (fun i => i + 1) := by
  induction l generalizing k with
  | nil => rfl
  | cons x xs ih =>
    by_cases h : p x
    · simp [findIndexAux, h]
    · simp [findIndexAux, h, ih]

theorem findIndexNone {α : Type} (p : α → Bool) :
    ∀ l : List α, (∀ x ∈ l, p x = false) → findIndex p l = none := by
  have aux : ∀ (l : List α), (∀ x ∈ l, p x = false) →
      ∀ k, findIndexAux p l k = none := by
    intro l
    induction l with
    | nil => intro _ k; rfl
    | cons x xs ih =>
      intro h k
      simp only [findIndexAux, h x (by simp)]
      exact ih (fun y hy => h y (by simp [hy])) (k + 1)
  exact fun l h => aux l h 0

theorem findIndexMemKeys (q : String) (new : UserAnswer) (hnew : new.questionId = q) :
    ∀ l : List UserAnswer, q ∈ l.map (fun a => a.questionId) →
      ∃ i, findIndex (fun a => a.questionId == q) l = some i ∧
        (l.set i new).map (fun a => a.questionId) = l.map (fun a => a.questionId) := by
  intro l
  induction l with
  | nil => simp
  | cons x xs ih =>
    intro hmem
    by_cases hx : x.questionId = q
    · refine ⟨0, ?_, ?_⟩
      · simp [findIndex, findIndexAux, hx]
      · simp [hnew, hx]
    · have hmem' : q ∈ xs.map (fun a => a.questionId) := by
        rcases List.mem_map.mp hmem with ⟨a, ha, haq⟩
        rcases List.mem_cons.mp ha with ha2 | ha2
        · exact absurd (ha2 ▸ haq) hx
        · exact List.mem_map.mpr ⟨a, ha2, haq⟩
      obtain ⟨i, hfi, hkeys⟩ := ih hmem'
      refine ⟨i + 1, ?_, ?_⟩
      · have : findIndexAux (fun a => a.questionId == q) xs 1 =
            (findIndexAux (fun a => a.questionId == q) xs 0).map (fun j => j + 1) :=
          findIndexAuxSucc _ xs 0
        simp only [findIndex, findIndexAux, beq_iff_eq, hx, if_false]
        rw [this]
        simp only [findIndex] at hfi
        rw [hfi]
        rfl
      · simp [List.set_cons_succ, hkeys]

theorem answerQuestionNodup (l : List UserAnswer) (q : String) (s c : Nat)
    (h : (l.map (fun a => a.questionId)).Nodup) :
    ((answerQuestion l q s c).map (fun a => a.questionId)).Nodup := by
  by_cases hmem : q ∈ l.map (fun a => a.questionId)
  · obtain ⟨i, hfi, hkeys⟩ := findIndexMemKeys q
      { questionId := q, selectedOption := s, isCorrect := s == c } rfl l hmem
    simp only [answerQuestion, hfi]
    rw [hkeys]
    exact h
  · have hfi : findIndex (fun a => a.questionId == q) l = none := by
      refine findIndexNone _ l (fun x hx => ?_)
      simp only [beq_eq_false_iff_ne, ne_eq]
      exact fun hxq => hmem (List.mem_map.mpr ⟨x, hx, hxq⟩)
    simp only [answerQuestion, hfi, List.map_append]
    rw [List.nodup_append]
    refine ⟨h, by simp, ?_⟩
    intro a ha
    simp only [List.map_cons, List.map_nil, List.mem_singleton]
    intro hb
    exact hmem (hb ▸ ha)

/-- C9: (1) after any sequence of `answerQuestion` operations starting
from the empty collection, question ids are pairwise distinct (at most
one answer per question); (2) answering a question that already has an
answer overwrites it in place, preserving position and length;
(3) answering a new question appends one entry; (4) nodup question
ids are preserved by every step; the stored entry always carries
`isCorrect = (selectedOption == correctAnswer)`. -/
theorem answerQuestion_upsert_invariant :
    (∀ ops : List (String × Nat × Nat),
      (((ops.foldl (fun l op => answerQuestion l op.1 op.2.1 op.2.2) [])).map
        (fun a => a.questionId)).Nodup) ∧
    (∀ (l : List UserAnswer) (q : String) (s c : Nat),
      (q ∈ l.map (fun a => a.questionId) →
        ∃ i, findIndex (fun a => a.questionId == q) l = some i ∧
          answerQuestion l q s c =
            l.set i { questionId := q, selectedOption := s, isCorrect := s == c } ∧
          (answerQuestion l q s c).length = l.length ∧
          (answerQuestion l q s c).map (fun a => a.questionId) =
            l.map (fun a => a.questionId)) ∧
      (q ∉ l.map (fun a => a.questionId) →
        answerQuestion l q s c =
          l ++ [{ questionId := q, selectedOption := s, isCorrect := s == c }]) ∧
      ((l.map (fun a => a.questionId)).Nodup →
        ((answerQuestion l q s c).map (fun a => a.questionId)).Nodup)) := by
  constructor
  · have aux : ∀ (ops : List (String × Nat × Nat)) (acc : List UserAnswer),
        (acc.map (fun a => a.questionId)).Nodup →
        (((ops.foldl (fun l op => answerQuestion l op.1 op.2.1 op.2.2) acc)).map
          (fun a => a.questionId)).Nodup := by
      intro ops
      induction ops with
      | nil => intro acc h; simpa using h
      | cons op rest ih =>
        intro acc h
        exact ih _ (answerQuestionNodup _ _ _ _ h)
    exact fun ops => aux ops [] (by simp)
  · intro l q s c
    refine ⟨?_, ?_, answerQuestionNodup l q s c⟩
    · intro hmem
      obtain ⟨i, hfi, hkeys⟩ := findIndexMemKeys q
        { questionId := q, selectedOption := s, isCorrect := s == c } rfl l hmem
      refine ⟨i, hfi, ?_, ?_, ?_⟩
      · simp [answerQuestion, hfi]
      · simp [answerQuestion, hfi]
      · simp only [answerQuestion, hfi]
        exact hkeys
    · intro hmem
      have hfi : findIndex (fun a => a.questionId == q) l = none := by
        refine findIndexNone _ l (fun x hx => ?_)
        simp only [beq_eq_false_iff_ne, ne_eq]
        exact fun hxq => hmem (List.mem_map.mpr ⟨x, hx, hxq⟩)
      simp [answerQuestion, hfi]

/-- C9 (witness): appending an answer for a fresh question id on the
concrete two-answer collection, and overwriting an existing one. -/
theorem answerQuestion_upsert_invariant_witness :
    answerQuestion twoAnswers ("q3") 1 0 =
      twoAnswers ++ [{ questionId := "q3", selectedOption := 1, isCorrect := false }] ∧
    ((answerQuestion twoAnswers ("q1") 2 2).map (fun a => a.questionId)).Nodup := by
  constructor
  · have h := ((answerQuestion_upsert_invariant.2 twoAnswers ("q3") 1 0).2.1) (by decide)
    simpa using h
  · exact (answerQuestion_upsert_invariant.2 twoAnswers ("q1") 2 2).2.2 (by decide)

theorem retryGoOkImpliesSuccess {α : Type} (f : Nat → Except String α) (d : Nat) :
    ∀ (rem att : Nat) (le : Option String) (v : α),
      (retryGo f d att rem le).result = Except.ok v →
      ∃ i, att ≤ i ∧ i < att + rem ∧ f i = Except.ok v := by
  intro rem
  induction rem with
  | zero =>
    intro att le v h
    simp [retryGo] at h
  | succ r ih =>
    intro att le v h
    rcases hf : f att with e | w
    · have h2 : (retryGo f d (att + 1) r (some e)).result = Except.ok v := by
        simpa [retryGo, hf] using h
      obtain ⟨i, h3, h4, h5⟩ := ih (att + 1) (some e) v h2
      exact ⟨i, by omega, by omega, h5⟩
    · have hw : w = v := by simpa [retryGo, hf] using h
      exact ⟨att, le_refl _, by omega, by rw [hf, hw]⟩

/-- C10: when `retryWithBackoff` is called with a non-positive retry
bound, the loop body never runs: the operation is never invoked, no
delay occurs, and the never-assigned `lastError` (the `undefined`
value, modelled as `none`) is thrown instead of a typed error; and in
general the utility only returns normally when some attempt of the
operation succeeded. -/
theorem retryWithBackoff_nonpositive_retries :
    ∀ {α : Type} (f : Nat → Except String α) (maxRetries : Int) (baseDelay : Nat),
      (maxRetries ≤ 0 →
        retryWithBackoff f maxRetries baseDelay =
          { result := Except.error none, delays := [], calls := 0 }) ∧
      (∀ v, (retryWithBackoff f maxRetries baseDelay).result = Except.ok v →
        ∃ i, i < maxRetries.toNat ∧ f i = Except.ok v) := by
  intro α f m d
  constructor
  · intro hm
    rw [retryWithBackoff, Int.toNat_of_nonpos hm]
    rfl
  · intro v h
    obtain ⟨i, h1, h2, h3⟩ := retryGoOkImpliesSuccess f d m.toNat 0 none v h
    exact ⟨i, by omega, h3⟩

/-- C10 (witness): a call with `maxRetries = -2` never invokes the
operation and throws the unassigned value. -/
theorem retryWithBackoff_nonpositive_retries_witness :
    retryWithBackoff (fun _ => (Except.error ("x") : Except String Nat)) (-2) 1000 =
      { result := Except.error none, delays := [], calls := 0 } :=
  (retryWithBackoff_nonpositive_retries
    (fun _ => (Except.error ("x") : Except String Nat)) (-2) 1000).1 (by decide)
